import Mathlib

/-!
Verification of the meters REST example (meters.go): the data model, the
in-memory store operations and the HTTP handlers are embedded as executable
Lean functions, and the behavioural claims about them are settled below.
-/

namespace MetersApp

/-- Meter data model (struct `Meter` in meters.go); field defaults are the Go
zero values. `duration` is the unexported nanosecond field of Go type
`time.Duration` (an int64). -/
structure Meter where
  ID : String := ""
  UserID : Int := 0
  ProjectName : String := ""
  OraConnectID : String := ""
  OraUser : String := ""
  OraPassword : String := ""
  Duration : String := ""
  duration : Int := 0
  Slug : String := ""
deriving DecidableEq

/-- The fixture store (package variable `meters` in meters.go). -/
def meters : List Meter :=
  [ { ID := "1", UserID := 100, ProjectName := "Hi", Slug := "hi" },
    { ID := "2", UserID := 200, ProjectName := "sup", Slug := "sup" },
    { ID := "3", UserID := 300, ProjectName := "alo", Slug := "alo" },
    { ID := "4", UserID := 400, ProjectName := "bonjour", Slug := "bonjour" },
    { ID := "5", UserID := 500, ProjectName := "whats up", Slug := "whats-up" } ]

/-- Decimal-digit test on a character, as the byte-range checks of Go's
`time.ParseDuration` (`'0' <= c && c <= '9'`). -/
def isDigitCh (c : Char) : Bool := 48 ≤ c.toNat && c.toNat ≤ 57

/-- `leadingInt` from Go's time package: consume `[0-9]*`, accumulating into a
uint64 with the source's overflow guards (`x > 1<<63/10` before the multiply,
`x > 1<<63` after); `none` models `errLeadingInt`. The guards keep `x` below
`2^64`, so natural-number arithmetic coincides with the uint64 arithmetic. -/
def leadingInt : Nat → List Char → Option (Nat × List Char)
  | x, [] => some (x, [])
  | x, c :: rest =>
    if isDigitCh c then
      if x > 2 ^ 63 / 10 then none
      else
        let x2 := x * 10 + (c.toNat - 48)
        if x2 > 2 ^ 63 then none else leadingInt x2 rest
    else some (x, c :: rest)

/-- `leadingFraction` from Go's time package: consume `[0-9]*` after the
decimal point, returning the digit value and the scale, freezing both once the
value would overflow. Go tracks the scale as a float64 power of ten; here it is
the exact power of ten (the two agree on every input whose scale stays exactly
representable, and no claim exercises a fractional duration at all). -/
def leadingFraction : Nat → Nat → Bool → List Char → Nat × Nat × List Char
  | x, scale, _, [] => (x, scale, [])
  | x, scale, overflow, c :: rest =>
    if isDigitCh c then
      if overflow then leadingFraction x scale overflow rest
      else if x > (2 ^ 63 - 1) / 10 then leadingFraction x scale true rest
      else
        let y := x * 10 + (c.toNat - 48)
        if y > 2 ^ 63 then leadingFraction x scale true rest
        else leadingFraction y (scale * 10) overflow rest
    else (x, scale, c :: rest)

/-- `unitMap` from Go's time package: nanoseconds per accepted unit token. -/
def unitMap (u : List Char) : Option Nat :=
  if u = ['n', 's'] then some 1
  else if u = ['u', 's'] then some 1000
  else if u = ['µ', 's'] then some 1000
  else if u = ['μ', 's'] then some 1000
  else if u = ['m', 's'] then some 1000000
  else if u = ['s'] then some 1000000000
  else if u = ['m'] then some 60000000000
  else if u = ['h'] then some 3600000000000
  else none

/-- Length of the unit token: the scan in `ParseDuration` stops at the first
decimal point or digit. -/
def unitLen : List Char → Nat
  | [] => 0
  | c :: rest => if c = '.' || isDigitCh c then 0 else unitLen rest + 1

/-- Unit-and-overflow tail of one `ParseDuration` loop iteration: consume the
unit token, check `v > 1<<63/unit`, multiply, add the fractional contribution
when `f > 0` and re-check against `2^63`. Go computes the fractional term as
`uint64(float64(f) * (float64(unit) / scale))`; here it is the exact
`f * unit / scale`, which agrees wherever that product is exactly
representable (no claim evaluates a fractional duration). -/
def parseDurUnit (v f scale : Nat) (s2 : List Char) : Option (Nat × List Char) :=
  let i := unitLen s2
  if i = 0 then none
  else
    match unitMap (s2.take i) with
    | none => none
    | some unit =>
      if v > 2 ^ 63 / unit then none
      else
        let v1 := v * unit
        let v2 := if 0 < f then v1 + f * unit / scale else v1
        if 0 < f ∧ 2 ^ 63 < v2 then none
        else some (v2, s2.drop i)

/-- One iteration of the `ParseDuration` loop: the next character must be a
digit or a point, then `[0-9]*`, then an optional `.[0-9]*`, requiring digits
on at least one side of the point, then the unit. Returns the nanosecond value
of the term and the remaining input. -/
def parseDurTerm (cs : List Char) : Option (Nat × List Char) :=
  match cs with
  | [] => none
  | c :: _ =>
    if !(c = '.' || isDigitCh c) then none
    else
      match leadingInt 0 cs with
      | none => none
      | some (v, s1) =>
        let pre : Bool := s1.length != cs.length
        match s1 with
        | '.' :: s1x =>
          let fr := leadingFraction 0 1 false s1x
          let post : Bool := fr.2.2.length != s1x.length
          if pre = false && post = false then none
          else parseDurUnit v fr.1 fr.2.1 fr.2.2
        | _ =>
          if pre = false then none
          else parseDurUnit v 0 1 s1

/-- The accumulation loop of `ParseDuration`. Every successful term consumes
input, so a fuel of the input length bounds the iteration count without
changing the result. `d` accumulates uint64 nanoseconds: the addition is
reduced mod `2^64` exactly as uint64 addition is, then checked against
`2^63`. -/
def parseDurLoop : Nat → List Char → Nat → Option Nat
  | _, [], d => some d
  | 0, _ :: _, _ => none
  | fuel + 1, cs, d =>
    match parseDurTerm cs with
    | none => none
    | some (v, rest) =>
      let d2 := (d + v) % 2 ^ 64
      if 2 ^ 63 < d2 then none else parseDurLoop fuel rest d2

/-- Go `time.ParseDuration`: optional sign, the special case `"0"`, the empty
string rejected, then repeated number-fraction-unit terms; the result is int64
nanoseconds, `none` modelling a non-nil error. -/
def ParseDuration (s : String) : Option Int :=
  let cs := s.data
  let p : Bool × List Char :=
    match cs with
    | '-' :: rest => (true, rest)
    | '+' :: rest => (false, rest)
    | _ => (false, cs)
  let neg := p.1
  let cs1 := p.2
  if cs1 = ['0'] then some 0
  else if cs1 = [] then none
  else
    match parseDurLoop (cs1.length + 1) cs1 0 with
    | none => none
    | some d =>
      if neg then some (-(d : Int))
      else if 2 ^ 63 - 1 < d then none
      else some (d : Int)

/-- Go `strings.ToLower` on the ASCII range (Go applies the Unicode case
mapping; every string this program lowercases in the claims is ASCII). -/
def stringsToLower (s : String) : String :=
  String.mk (s.data.map fun c =>
    if 65 ≤ c.toNat && c.toNat ≤ 90 then Char.ofNat (c.toNat + 32) else c)

/-- A decoded JSON request body, restricted to the keys the `MeterRequest`
payload recognises; `none` marks an absent key. Unknown keys are ignored by
`encoding/json` and so are not represented. -/
structure Body where
  id : Option String := none
  user_id : Option Int := none
  project : Option String := none
  ora_conn : Option String := none
  ora_user : Option String := none
  ora_password : Option String := none
  duration : Option String := none
  slug : Option String := none
deriving DecidableEq

/-- Whether the body sets any key that resolves to the embedded `Meter`. The
key `"id"` resolves to the outer `ProtectedID` field, which shadows the
promoted `Meter.ID` at a smaller depth, so it does not count; `"user"` decodes
into the outer `User` field. `encoding/json` allocates the nil embedded
`*Meter` exactly when one of these keys is present. -/
def hasMeterField (b : Body) : Bool :=
  b.user_id.isSome || b.project.isSome || b.ora_conn.isSome || b.ora_user.isSome ||
    b.ora_password.isSome || b.duration.isSome || b.slug.isSome

/-- `encoding/json` decoding of a body into an existing `Meter`: present keys
overwrite the matching exported fields; `ID` is untouched (its `"id"` tag is
shadowed by `ProtectedID`) and the unexported `duration` field is untouched. -/
def decodeInto (m : Meter) (b : Body) : Meter :=
  { m with
    UserID := b.user_id.getD m.UserID
    ProjectName := b.project.getD m.ProjectName
    OraConnectID := b.ora_conn.getD m.OraConnectID
    OraUser := b.ora_user.getD m.OraUser
    OraPassword := b.ora_password.getD m.OraPassword
    Duration := b.duration.getD m.Duration
    Slug := b.slug.getD m.Slug }

/-- Go zero value of `Meter`, as allocated by `encoding/json` when it first
writes through the nil embedded pointer. -/
def zeroMeter : Meter := {}

/-- Decoding a create request: `CreateMeter` starts from a `MeterRequest`
whose embedded `Meter` pointer is nil, and the pointer stays nil (`none`)
when the body sets no `Meter` key. -/
def decodeCreate (b : Body) : Option Meter :=
  if hasMeterField b then some (decodeInto zeroMeter b) else none

/-- Body of `(*MeterRequest).Bind` after the pointer dereference has
succeeded: writes `Slug` from `ProjectName`, defaults a blank `Duration` to
`"1h"`, then assigns the parse result to `duration` — Go's multiple
assignment stores `ParseDuration`'s zero first return value even on error, so
the failing branch leaves `duration = 0`. The `Bool` is whether `Bind`
returned a nil error. -/
def bindMeter (m : Meter) : Meter × Bool :=
  let m1 := { m with Slug := stringsToLower m.ProjectName }
  let m2 := if m1.Duration = "" then { m1 with Duration := "1h" } else m1
  match ParseDuration m2.Duration with
  | some d => ({ m2 with duration := d }, true)
  | none => ({ m2 with duration := 0 }, false)

/-- `dbGetMeter`: linear scan for the first record with the given ID; `none`
models the `"meter not found."` error. -/
def dbGetMeter : List Meter → String → Option Meter
  | [], _ => none
  | a :: rest, id => if a.ID = id then some a else dbGetMeter rest id

/-- `dbGetMeterBySlug`: linear scan for the first record with the given
slug. -/
def dbGetMeterBySlug : List Meter → String → Option Meter
  | [], _ => none
  | a :: rest, slug => if a.Slug = slug then some a else dbGetMeterBySlug rest slug

/-- `dbNewMeter`: overwrite the meter's ID in place with the random small
integer `rand.Intn(100)+10` printed in decimal — the draw is passed in as `r`
and reduced to `Intn`'s range `[0,100)` — then append. The second component is
the stored record carrying the in-place ID write. -/
def dbNewMeter (store : List Meter) (m : Meter) (r : Nat) : List Meter × Meter :=
  let m2 := { m with ID := toString (r % 100 + 10) }
  (store ++ [m2], m2)

/-- `dbUpdateMeter`: replace the first record whose ID matches; the `Bool`
records whether a match was found (`false` models the `"meter not found."`
error return). -/
def dbUpdateMeter : List Meter → String → Meter → List Meter × Bool
  | [], _, _ => ([], false)
  | a :: rest, id, m =>
    if a.ID = id then (m :: rest, true)
    else
      let p := dbUpdateMeter rest id m
      (a :: p.1, p.2)

/-- `dbRemoveMeter`: remove the first record whose ID matches and return it;
`none` models the `"meter not found."` error. -/
def dbRemoveMeter : List Meter → String → List Meter × Option Meter
  | [], _ => ([], none)
  | a :: rest, id =>
    if a.ID = id then (rest, some a)
    else
      let p := dbRemoveMeter rest id
      (a :: p.1, p.2)

/-- `MeterResponse` wraps a record; its `Render` is a no-op. -/
structure MeterResponse where
  Meter : Meter
deriving DecidableEq

/-- `NewMeterListResponse`: wrap each record of the list, in order. -/
def NewMeterListResponse (ms : List Meter) : List MeterResponse :=
  ms.map fun m => { Meter := m }

/-- `ListMeters`: renders the whole store, in store order. -/
def ListMeters (store : List Meter) : List MeterResponse :=
  NewMeterListResponse store

/-- Outcome of the resolver middleware: either the Not-Found response, or the
downstream handler invoked with the resolved record on the request context. -/
inductive CtxResult where
  | notFound
  | next (m : Meter)
deriving DecidableEq

/-- `MeterCtx` middleware. The empty string is `chi.URLParam`'s value for an
absent path segment; `next m` models invoking the downstream handler with `m`
attached to the request context. -/
def MeterCtx (store : List Meter) (meterID meterSlug : String) : CtxResult :=
  if meterID ≠ "" then
    match dbGetMeter store meterID with
    | some m => CtxResult.next m
    | none => CtxResult.notFound
  else if meterSlug ≠ "" then
    match dbGetMeterBySlug store meterSlug with
    | some m => CtxResult.next m
    | none => CtxResult.notFound
  else CtxResult.notFound

/-- Outcome of a CRUD handler: the Not-Found response from the middleware
path, `ErrInvalidRequest`, a nil-pointer-dereference panic, a plain success
render of one record, or the 201 create response. -/
inductive HResult where
  | notFound
  | invalid
  | panicked
  | ok (m : Meter)
  | created (m : Meter)
deriving DecidableEq

/-- `CreateMeter`: `render.Bind` decodes into a `MeterRequest` whose embedded
`Meter` is nil and then runs `Bind`, which dereferences the pointer
(`panicked` when the body set no `Meter` key); a `Bind` error renders
`ErrInvalidRequest`; otherwise `dbNewMeter` assigns the ID and appends, and
the stored record is rendered with status 201. -/
def CreateMeter (store : List Meter) (b : Body) (r : Nat) : List Meter × HResult :=
  match decodeCreate b with
  | none => (store, HResult.panicked)
  | some m0 =>
    let br := bindMeter m0
    if br.2 then
      let p := dbNewMeter store br.1 r
      (p.1, HResult.created p.2)
    else (store, HResult.invalid)

/-- `UpdateMeter`: the context meter is a pointer; `pos` is its index in the
store while the record is still there (`none` models the record having been
removed between resolution and update, which makes writes through the pointer
invisible to the store). `render.Bind` decodes the body into the pointed-to
record and runs `Bind` — both mutate it in place — and a `Bind` error renders
`ErrInvalidRequest` with that mutation already applied. On success the error
return of `dbUpdateMeter` is discarded and the bound record is rendered as a
success response. -/
def UpdateMeter (store : List Meter) (pos : Option Nat) (resolved : Meter)
    (b : Body) : List Meter × HResult :=
  let br := bindMeter (decodeInto resolved b)
  let store1 :=
    match pos with
    | some i => store.set i br.1
    | none => store
  if br.2 then ((dbUpdateMeter store1 br.1.ID br.1).1, HResult.ok br.1)
  else (store1, HResult.invalid)

/-- `DeleteMeter`: removes the record carrying the resolved meter's ID and
renders it; a miss renders `ErrInvalidRequest`, the store reconstructed by the
scan being unchanged. -/
def DeleteMeter (store : List Meter) (resolved : Meter) : List Meter × HResult :=
  match dbRemoveMeter store resolved.ID with
  | (s, some m) => (s, HResult.ok m)
  | (s, none) => (s, HResult.invalid)

/-- Index of the first record with the given ID: the position of the pointer
`dbGetMeter` returns when it succeeds. -/
def findIdxID : List Meter → String → Option Nat
  | [], _ => none
  | a :: rest, id => if a.ID = id then some 0 else (findIdxID rest id).map (· + 1)

/-- `MeterCtx` followed by `UpdateMeter`, run sequentially: the resolved
pointer is the first record with the given ID and is still at that position
at write time. -/
def updateByID (store : List Meter) (id : String) (b : Body) :
    List Meter × HResult :=
  match findIdxID store id with
  | none => (store, HResult.notFound)
  | some i =>
    match store[i]? with
    | some resolved => UpdateMeter store (some i) resolved b
    | none => (store, HResult.notFound)

/-- `MeterCtx` followed by `DeleteMeter`, run sequentially. -/
def deleteByID (store : List Meter) (id : String) : List Meter × HResult :=
  match dbGetMeter store id with
  | none => (store, HResult.notFound)
  | some resolved => DeleteMeter store resolved

/-- One client operation against the service: a create request (with the
outcome of the random draw), an update request addressed by ID, or a delete
request addressed by ID. -/
inductive Op where
  | create (b : Body) (r : Nat)
  | update (id : String) (b : Body)
  | delete (id : String)
deriving DecidableEq

/-- Whether the operation is an update request. -/
def Op.isUpdate : Op → Bool
  | .update _ _ => true
  | _ => false

/-- The store after one operation. -/
def applyOp (store : List Meter) : Op → List Meter
  | .create b r => (CreateMeter store b r).1
  | .update id b => (updateByID store id b).1
  | .delete id => (deleteByID store id).1

/-- The store after a sequence of operations. -/
def applyOps (store : List Meter) (ops : List Op) : List Meter :=
  ops.foldl applyOp store

/-- The record a successful create appends, as a function of the body and the
random draw alone (the appended record does not depend on the store). -/
def createdRecord (b : Body) (r : Nat) : Option Meter :=
  match decodeCreate b with
  | none => none
  | some m0 =>
    let br := bindMeter m0
    if br.2 then some { br.1 with ID := toString (r % 100 + 10) } else none

/-- All records appended by the creates of an operation sequence, in order. -/
def createdAll : List Op → List Meter
  | [] => []
  | Op.create b r :: rest => (createdRecord b r).toList ++ createdAll rest
  | Op.update _ _ :: rest => createdAll rest
  | Op.delete _ :: rest => createdAll rest

/-- Modelled from the spec's testable property on listing: records survive in
insertion order — each successful create appends its record at the end, each
delete removes the first record carrying the ID, and the remaining records
keep their relative order (updates, outside the property, follow the code). -/
def specSurvivors : List Meter → List Op → List Meter
  | s, [] => s
  | s, Op.create b r :: rest => specSurvivors (s ++ (createdRecord b r).toList) rest
  | s, Op.delete id :: rest => specSurvivors (s.eraseP fun m => m.ID == id) rest
  | s, Op.update id b :: rest => specSurvivors (applyOp s (Op.update id b)) rest

/-- Every successful create in the sequence draws an ID that is absent from
the store at the moment its record is appended. -/
def freshOps : List Meter → List Op → Bool
  | _, [] => true
  | s, Op.create b r :: rest =>
    (match createdRecord b r with
     | some m => (dbGetMeter s m.ID).isNone
     | none => true) && freshOps (applyOp s (Op.create b r)) rest
  | s, Op.update id b :: rest => freshOps (applyOp s (Op.update id b)) rest
  | s, Op.delete id :: rest => freshOps (applyOp s (Op.delete id)) rest

/-! Helper lemmas about the embedding. -/

/-- Decoding a body into a record never changes its ID (the `"id"` key is
shadowed by `ProtectedID`). -/
theorem decodeInto_ID (m : Meter) (b : Body) : (decodeInto m b).ID = m.ID := rfl

/-- `Bind` never changes the record's ID. -/
theorem bindMeter_ID (m : Meter) : (bindMeter m).1.ID = m.ID := by
  unfold bindMeter
  dsimp only
  split <;> (dsimp only; split <;> rfl)

/-- `dbGetMeter` misses exactly when no record carries the ID. -/
theorem dbGetMeter_eq_none (s : List Meter) (id : String) :
    dbGetMeter s id = none ↔ ∀ m ∈ s, m.ID ≠ id := by
  induction s with
  | nil => simp [dbGetMeter]
  | cons a rest ih =>
    by_cases h : a.ID = id <;> simp [dbGetMeter, h, ih]

/-- A record returned by `dbGetMeter` carries the requested ID. -/
theorem dbGetMeter_id {s : List Meter} {id : String} {m : Meter}
    (h : dbGetMeter s id = some m) : m.ID = id := by
  induction s with
  | nil => simp [dbGetMeter] at h
  | cons a rest ih =>
    rw [dbGetMeter] at h
    by_cases ha : a.ID = id
    · rw [if_pos ha] at h
      rw [← Option.some.inj h]
      exact ha
    · rw [if_neg ha] at h
      exact ih h

/-- A `dbGetMeter` miss means the ID is outside the store's ID column. -/
theorem dbGetMeter_none_not_mem {s : List Meter} {id : String}
    (h : dbGetMeter s id = none) : id ∉ s.map Meter.ID := by
  rw [dbGetMeter_eq_none] at h
  simp only [List.mem_map]
  rintro ⟨m, hm, hid⟩
  exact h m hm hid

/-- `dbUpdateMeter` on a missing ID reconstructs the store unchanged and
reports the error. -/
theorem dbUpdateMeter_not_found {s : List Meter} {id : String} (m : Meter)
    (h : dbGetMeter s id = none) : dbUpdateMeter s id m = (s, false) := by
  induction s with
  | nil => rfl
  | cons a rest ih =>
    by_cases ha : a.ID = id
    · simp [dbGetMeter, ha] at h
    · simp [dbGetMeter, ha] at h
      simp [dbUpdateMeter, ha, ih h]

/-- `dbRemoveMeter` on a missing ID reconstructs the store unchanged and
reports the error. -/
theorem dbRemoveMeter_not_found {s : List Meter} {id : String}
    (h : dbGetMeter s id = none) : dbRemoveMeter s id = (s, none) := by
  induction s with
  | nil => rfl
  | cons a rest ih =>
    by_cases ha : a.ID = id
    · simp [dbGetMeter, ha] at h
    · simp [dbGetMeter, ha] at h
      simp [dbRemoveMeter, ha, ih h]

/-- The store `dbRemoveMeter` leaves behind is the first-match erasure. -/
theorem dbRemoveMeter_fst_eraseP (s : List Meter) (id : String) :
    (dbRemoveMeter s id).1 = s.eraseP fun m => m.ID == id := by
  induction s with
  | nil => rfl
  | cons a rest ih =>
    by_cases ha : a.ID = id <;>
      simp [dbRemoveMeter, List.eraseP_cons, ha, ih]

/-- Replacing a record by one with the same ID leaves the ID column of the
store unchanged. -/
theorem dbUpdateMeter_map_ID {m : Meter} {id : String} (hm : m.ID = id) :
    ∀ s : List Meter, ((dbUpdateMeter s id m).1).map Meter.ID = s.map Meter.ID := by
  intro s
  induction s with
  | nil => rfl
  | cons a rest ih =>
    by_cases ha : a.ID = id
    · simp [dbUpdateMeter, ha, hm]
    · simp [dbUpdateMeter, ha, ih]

/-- Setting a position to a record with the same ID leaves the ID column
unchanged. -/
theorem map_ID_set {s : List Meter} {i : Nat} {x y : Meter}
    (hx : s[i]? = some x) (hxy : y.ID = x.ID) :
    (s.set i y).map Meter.ID = s.map Meter.ID := by
  induction s generalizing i with
  | nil => simp at hx
  | cons a rest ih =>
    cases i with
    | zero =>
      simp at hx
      simp [List.set, hxy, hx]
    | succ j =>
      simp at hx
      simp [List.set, ih hx]

/-- Setting a position to a different record changes the store. -/
theorem set_ne_of_getElem {s : List Meter} {i : Nat} {x y : Meter}
    (hx : s[i]? = some x) (hxy : y ≠ x) : s.set i y ≠ s := by
  intro he
  have h1 : (s.set i y)[i]? = some y := by
    have hlt : i < s.length := by
      by_contra hge
      simp [List.getElem?_eq_none (Nat.le_of_not_lt hge)] at hx
    simp [List.getElem?_set_self, hlt]
  rw [he, hx] at h1
  exact hxy (Option.some.inj h1).symm

/-- A successful `findIdxID` points at a record carrying the ID. -/
theorem findIdxID_spec {s : List Meter} {id : String} {i : Nat}
    (h : findIdxID s id = some i) : ∃ m, s[i]? = some m ∧ m.ID = id := by
  induction s generalizing i with
  | nil => simp [findIdxID] at h
  | cons a rest ih =>
    by_cases ha : a.ID = id
    · simp [findIdxID, ha] at h
      subst h
      exact ⟨a, by simp, ha⟩
    · simp [findIdxID, ha] at h
      obtain ⟨j, hj, rfl⟩ := h
      obtain ⟨m, hm, hmid⟩ := ih hj
      exact ⟨m, by simpa using hm, hmid⟩

/-- The store `CreateMeter` leaves behind is the old store with the created
record (when the create succeeded) appended. -/
theorem CreateMeter_fst (s : List Meter) (b : Body) (r : Nat) :
    (CreateMeter s b r).1 = s ++ (createdRecord b r).toList := by
  unfold CreateMeter createdRecord
  cases hd : decodeCreate b with
  | none => simp
  | some m0 =>
    dsimp only
    split <;> simp [dbNewMeter]

/-- An update request never changes the ID column of the store. -/
theorem updateByID_map_ID (s : List Meter) (id : String) (b : Body) :
    ((updateByID s id b).1).map Meter.ID = s.map Meter.ID := by
  unfold updateByID
  cases hf : findIdxID s id with
  | none => rfl
  | some i =>
    obtain ⟨m, hm, hmid⟩ := findIdxID_spec hf
    dsimp only
    rw [hm]
    dsimp only [UpdateMeter]
    have hbid : (bindMeter (decodeInto m b)).1.ID = id := by
      rw [bindMeter_ID, decodeInto_ID, hmid]
    have hset := map_ID_set hm (by rw [hbid, hmid])
    split
    · dsimp only
      rw [hbid, dbUpdateMeter_map_ID hbid, hset]
    · exact hset

/-- The store a delete request leaves behind is the first-match erasure of
the requested ID. -/
theorem deleteByID_fst_eraseP (s : List Meter) (id : String) :
    (deleteByID s id).1 = s.eraseP fun m => m.ID == id := by
  unfold deleteByID
  cases hg : dbGetMeter s id with
  | none =>
    rw [dbGetMeter_eq_none] at hg
    rw [List.eraseP_of_forall_not]
    intro m hm
    simpa using hg m hm
  | some m =>
    have hmid : m.ID = id := dbGetMeter_id hg
    dsimp only [DeleteMeter]
    rw [hmid]
    have := dbRemoveMeter_fst_eraseP s id
    split
    · next s2 m2 heq => rw [← this, heq]
    · next s2 heq => rw [← this, heq]

/-- A delete request leaves a sublist of the store behind. -/
theorem deleteByID_sublist (s : List Meter) (id : String) :
    (deleteByID s id).1.Sublist s := by
  rw [deleteByID_fst_eraseP]
  exact List.eraseP_sublist s

/-- Appending a record whose ID misses in the store makes it the record the
scan finds for that ID. -/
theorem dbGetMeter_append_self {s : List Meter} {m : Meter}
    (h : dbGetMeter s m.ID = none) : dbGetMeter (s ++ [m]) m.ID = some m := by
  induction s with
  | nil => simp [dbGetMeter]
  | cons a rest ih =>
    by_cases ha : a.ID = m.ID
    · simp [dbGetMeter, ha] at h
    · simp [dbGetMeter, ha] at h ⊢
      exact ih h

/-- The store after a sequence of operations is exactly the spec-side
survivor list. -/
theorem applyOps_eq_spec (ops : List Op) :
    ∀ s : List Meter, applyOps s ops = specSurvivors s ops := by
  induction ops with
  | nil => intro s; rfl
  | cons op rest ih =>
    intro s
    cases op with
    | create b r =>
      show applyOps (applyOp s (Op.create b r)) rest = _
      rw [ih, specSurvivors]
      congr 1
      exact CreateMeter_fst s b r
    | update id b =>
      show applyOps (applyOp s (Op.update id b)) rest = _
      rw [ih, specSurvivors]
    | delete id =>
      show applyOps (applyOp s (Op.delete id)) rest = _
      rw [ih, specSurvivors]
      congr 1
      exact deleteByID_fst_eraseP s id

/-- Without updates, the survivor list is a sublist of the old store followed
by the created records: deletions only remove elements and the relative order
of the rest is preserved. -/
theorem specSurvivors_sublist (ops : List Op) :
    ∀ s : List Meter, (∀ op ∈ ops, op.isUpdate = false) →
      (specSurvivors s ops).Sublist (s ++ createdAll ops) := by
  induction ops with
  | nil => intro s _; exact List.sublist_append_left s []
  | cons op rest ih =>
    intro s h
    have hrest : ∀ op ∈ rest, op.isUpdate = false := fun o ho => h o (by simp [ho])
    cases op with
    | create b r =>
      rw [specSurvivors, createdAll, ← List.append_assoc]
      exact ih (s ++ (createdRecord b r).toList) hrest
    | update id b =>
      have := h (Op.update id b) (by simp)
      simp [Op.isUpdate] at this
    | delete id =>
      rw [specSurvivors, createdAll]
      refine (ih _ hrest).trans ?_
      exact List.Sublist.append_right (List.eraseP_sublist s) _

/-- Every outcome of the random draw gives an ID absent from the fixture
store (fixture IDs are one character, draws print as two or three digits). -/
theorem meters_fresh : ∀ k, k < 100 → dbGetMeter meters (toString (k + 10)) = none := by
  decide

/-- `Bind` on a record with a non-blank duration that fails to parse: the
slug is recomputed, the duration field zeroed, and the error returned. -/
theorem bindMeter_fail {m : Meter} (hne : m.Duration ≠ "")
    (hp : ParseDuration m.Duration = none) :
    bindMeter m =
      ({ m with Slug := stringsToLower m.ProjectName, duration := 0 }, false) := by
  unfold bindMeter
  dsimp only
  rw [if_neg hne]
  dsimp only
  rw [hp]

/-! Concrete request bodies and records used as witnesses. -/

/-- The empty JSON body. -/
def emptyBody : Body := {}

/-- The create body of the documented example request: a client-supplied id
together with a project name. -/
def bodyAwesome : Body := { id := some "will-be-omitted", project := some "awesomeness" }

/-- A body carrying only the `"id"` key, which decodes into the outer
`ProtectedID` and leaves the embedded pointer nil. -/
def bodyIdOnly : Body := { id := some "will-be-omitted" }

/-- The bad-duration create body exercised by the repository's request
script. -/
def bodyBadDuration : Body :=
  { project := some "BAD-duration-example", ora_conn := some "user1",
    ora_password := some "Your-PassWd", duration := some "D1393" }

/-- Create body carrying only the project name "X". -/
def bodyX : Body := { project := some "X" }

/-- Create body with project name "a". -/
def bodyA : Body := { project := some "a" }

/-- Create body with project name "b". -/
def bodyB : Body := { project := some "b" }

/-- The first fixture record. -/
def meterFix1 : Meter := { ID := "1", UserID := 100, ProjectName := "Hi", Slug := "hi" }

/-- A record whose ID is absent from the fixture store. -/
def meter99 : Meter := { ID := "99" }

/-- The record a successful create of `bodyX` appends, given the draw. -/
def mX (r : Nat) : Meter :=
  { ID := toString (r % 100 + 10), ProjectName := "X", Duration := "1h",
    duration := 3600000000000, Slug := "x" }

/-! The claims. -/

/-- C1 counterexample: the resolved meter's ID "1" is no longer present in
the (here empty) store at write time and the body binds successfully, yet
`UpdateMeter` renders the bound record as a success response — not a
Not-Found-equivalent error and not an Invalid-Request error. -/
theorem updateMeter_write_miss_cex :
    (UpdateMeter [] none meterFix1 emptyBody).2 =
      HResult.ok { ID := "1", UserID := 100, ProjectName := "Hi", Duration := "1h",
                   duration := 3600000000000, Slug := "hi" } ∧
    (UpdateMeter [] none meterFix1 emptyBody).2 ≠ HResult.notFound ∧
    (UpdateMeter [] none meterFix1 emptyBody).2 ≠ HResult.invalid := by
  decide

/-- C1 amended: when the resolved meter's ID is no longer in the store at
write time and the body binds successfully, `UpdateMeter` discards
`dbUpdateMeter`'s not-found error: the store write is a no-op and the handler
renders the bound record as a success response. -/
theorem updateMeter_write_miss_success (store : List Meter) (resolved : Meter)
    (b : Body) (hid : dbGetMeter store resolved.ID = none)
    (hok : (bindMeter (decodeInto resolved b)).2 = true) :
    UpdateMeter store none resolved b =
      (store, HResult.ok (bindMeter (decodeInto resolved b)).1) := by
  have hbid : (bindMeter (decodeInto resolved b)).1.ID = resolved.ID := by
    rw [bindMeter_ID, decodeInto_ID]
  unfold UpdateMeter
  dsimp only
  rw [if_pos hok, hbid, dbUpdateMeter_not_found _ hid]

/-- C1 amended, witness instance at a concrete input. -/
theorem updateMeter_write_miss_success_witness :
    UpdateMeter [] none meterFix1 emptyBody =
      ([], HResult.ok (bindMeter (decodeInto meterFix1 emptyBody)).1) :=
  updateMeter_write_miss_success [] meterFix1 emptyBody (by decide) (by decide)

/-- C2 counterexample: two creates drawing the same random value are assigned
the same ID, so after two creates from the fixture store two distinct records
(the projects differ) carry equal ID fields. -/
theorem storeIds_collision_cex :
    (applyOps meters [Op.create bodyA 42, Op.create bodyB 42]).Nodup ∧
    ¬ ((applyOps meters [Op.create bodyA 42, Op.create bodyB 42]).map Meter.ID).Nodup := by
  decide

/-- C2 amended: ID uniqueness is an invariant provided every successful
create draws an ID absent from the store at the moment its record is appended
— the random small-integer draw does not guarantee that (the flagged defect);
update and delete preserve uniqueness unconditionally. -/
theorem applyOps_ids_nodup_of_fresh (ops : List Op) :
    ∀ store : List Meter, (store.map Meter.ID).Nodup → freshOps store ops = true →
      ((applyOps store ops).map Meter.ID).Nodup := by
  induction ops with
  | nil => intro s h0 _; exact h0
  | cons op rest ih =>
    intro s h0 hf
    cases op with
    | create b r =>
      rw [freshOps, Bool.and_eq_true] at hf
      refine ih _ ?_ hf.2
      have h1 := hf.1
      show (((CreateMeter s b r).1).map Meter.ID).Nodup
      rw [CreateMeter_fst]
      cases hc : createdRecord b r with
      | none => simpa using h0
      | some m =>
        simp only [hc] at h1
        rw [Option.isNone_iff_eq_none] at h1
        have hnm := dbGetMeter_none_not_mem h1
        simp [List.nodup_append, h0, hnm]
    | update id b =>
      rw [freshOps] at hf
      refine ih _ ?_ hf
      show (((updateByID s id b).1).map Meter.ID).Nodup
      rw [updateByID_map_ID]
      exact h0
    | delete id =>
      rw [freshOps] at hf
      refine ih _ ?_ hf
      exact List.Nodup.sublist ((deleteByID_sublist s id).map Meter.ID) h0

/-- C2 amended, witness instance: one fresh create, one delete and one update
starting from the fixture store. -/
theorem applyOps_ids_nodup_of_fresh_witness :
    ((applyOps meters [Op.create bodyA 0, Op.delete "2", Op.update "3" bodyB]).map
      Meter.ID).Nodup :=
  applyOps_ids_nodup_of_fresh [Op.create bodyA 0, Op.delete "2", Op.update "3" bodyB]
    meters (by decide) (by decide)

/-- C3: an update request whose duration string fails to parse renders
ErrInvalidRequest while the resolved store record has already been
overwritten in place by the decode and the bind: the body's field values and
the recomputed slug are stored at the record's position, so the store is not
left unchanged on a failed update (whenever the stored duration string
actually changes). -/
theorem updateMeter_bad_duration_mutates (store : List Meter) (i : Nat)
    (resolved : Meter) (b : Body) (d : String)
    (hres : store[i]? = some resolved)
    (hd : b.duration = some d) (hne : d ≠ "") (hp : ParseDuration d = none) :
    UpdateMeter store (some i) resolved b =
      (store.set i (bindMeter (decodeInto resolved b)).1, HResult.invalid) ∧
    (bindMeter (decodeInto resolved b)).1.Duration = d ∧
    (bindMeter (decodeInto resolved b)).1.ProjectName =
      b.project.getD resolved.ProjectName ∧
    (bindMeter (decodeInto resolved b)).1.Slug =
      stringsToLower (b.project.getD resolved.ProjectName) ∧
    (resolved.Duration ≠ d → store.set i (bindMeter (decodeInto resolved b)).1 ≠ store) := by
  have hdur : (decodeInto resolved b).Duration = d := by
    simp [decodeInto, hd]
  have hfail := bindMeter_fail (m := decodeInto resolved b)
    (by rw [hdur]; exact hne) (by rw [hdur]; exact hp)
  refine ⟨?_, ?_, ?_, ?_, ?_⟩
  · unfold UpdateMeter
    rw [hfail]
    rfl
  · rw [hfail]
    exact hdur
  · rw [hfail]
    rfl
  · rw [hfail]
    rfl
  · intro hne2
    refine set_ne_of_getElem hres ?_
    intro he
    apply hne2
    have hD : (bindMeter (decodeInto resolved b)).1.Duration = d := by
      rw [hfail]; exact hdur
    rw [← he]
    exact hD

/-- C3 witness instance: updating fixture record "1" in place with the
script's bad duration. -/
theorem updateMeter_bad_duration_mutates_witness :
    (UpdateMeter meters (some 0) meterFix1 bodyBadDuration =
      (meters.set 0 (bindMeter (decodeInto meterFix1 bodyBadDuration)).1,
        HResult.invalid) ∧
    (bindMeter (decodeInto meterFix1 bodyBadDuration)).1.Duration = "D1393" ∧
    (bindMeter (decodeInto meterFix1 bodyBadDuration)).1.ProjectName =
      bodyBadDuration.project.getD meterFix1.ProjectName ∧
    (bindMeter (decodeInto meterFix1 bodyBadDuration)).1.Slug =
      stringsToLower (bodyBadDuration.project.getD meterFix1.ProjectName) ∧
    (meterFix1.Duration ≠ "D1393" →
      meters.set 0 (bindMeter (decodeInto meterFix1 bodyBadDuration)).1 ≠ meters)) :=
  updateMeter_bad_duration_mutates meters 0 meterFix1 bodyBadDuration "D1393"
    (by decide) (by decide) (by decide) (by decide)

/-- C4: the client-supplied id of a create body is discarded — the record
appended to the store and returned in the 201 response carries the
server-assigned ID, and the whole outcome of the create is independent of the
body's id key. -/
theorem createMeter_assigns_server_id (store : List Meter) (b : Body) (r : Nat)
    (hmf : hasMeterField b = true)
    (hok : (bindMeter (decodeInto zeroMeter b)).2 = true) :
    (∃ m, CreateMeter store b r = (store ++ [m], HResult.created m) ∧
      m.ID = toString (r % 100 + 10)) ∧
    ∀ cid, CreateMeter store { b with id := cid } r = CreateMeter store b r := by
  constructor
  · refine ⟨{ (bindMeter (decodeInto zeroMeter b)).1 with
      ID := toString (r % 100 + 10) }, ?_, rfl⟩
    have hdc : decodeCreate b = some (decodeInto zeroMeter b) := by
      unfold decodeCreate
      rw [if_pos hmf]
    unfold CreateMeter
    rw [hdc]
    dsimp only
    rw [if_pos hok]
    rfl
  · intro cid
    cases b
    rfl

/-- C4 witness instance: the documented example create request. -/
theorem createMeter_assigns_server_id_witness :
    (∃ m, CreateMeter meters bodyAwesome 87 = (meters ++ [m], HResult.created m) ∧
      m.ID = toString (87 % 100 + 10)) ∧
    ∀ cid, CreateMeter meters { bodyAwesome with id := cid } 87 =
      CreateMeter meters bodyAwesome 87 :=
  createMeter_assigns_server_id meters bodyAwesome 87 (by decide) (by decide)

/-- C5: a create request whose non-blank duration string is unparseable
renders ErrInvalidRequest and leaves the store exactly unchanged — no record
is appended. -/
theorem createMeter_bad_duration_invalid (store : List Meter) (b : Body)
    (r : Nat) (d : String) (hd : b.duration = some d) (hne : d ≠ "")
    (hp : ParseDuration d = none) :
    CreateMeter store b r = (store, HResult.invalid) := by
  have hmf : hasMeterField b = true := by
    simp [hasMeterField, hd]
  have hdc : decodeCreate b = some (decodeInto zeroMeter b) := by
    unfold decodeCreate
    rw [if_pos hmf]
  have hdur : (decodeInto zeroMeter b).Duration = d := by
    simp [decodeInto, hd]
  have hfail := bindMeter_fail (m := decodeInto zeroMeter b)
    (by rw [hdur]; exact hne) (by rw [hdur]; exact hp)
  unfold CreateMeter
  rw [hdc]
  dsimp only
  rw [hfail]
  rfl

/-- C5 witness instance: the script's "D1393" create request. -/
theorem createMeter_bad_duration_invalid_witness :
    CreateMeter meters bodyBadDuration 0 = (meters, HResult.invalid) :=
  createMeter_bad_duration_invalid meters bodyBadDuration 0 "D1393"
    (by decide) (by decide) (by decide)

/-- C6: creating with body project "X" (no duration, no slug) appends one
record, and fetching the returned ID from the new store yields that record,
whose slug is "x" and whose duration string is "1h" — for every outcome of
the random draw. -/
theorem create_then_get_roundtrip (r : Nat) :
    ∃ m, CreateMeter meters bodyX r = (meters ++ [m], HResult.created m) ∧
      dbGetMeter (CreateMeter meters bodyX r).1 m.ID = some m ∧
      m.Slug = "x" ∧ m.Duration = "1h" := by
  have hcr : CreateMeter meters bodyX r = (meters ++ [mX r], HResult.created (mX r)) := rfl
  refine ⟨mX r, hcr, ?_, rfl, rfl⟩
  rw [hcr]
  exact dbGetMeter_append_self (meters_fresh (r % 100) (Nat.mod_lt r (by decide)))

/-- C7: deleting when the resolved meter's ID is absent from the store at
delete time renders ErrInvalidRequest and leaves the store exactly
unchanged. -/
theorem deleteMeter_missing_id_invalid (store : List Meter) (resolved : Meter)
    (h : dbGetMeter store resolved.ID = none) :
    DeleteMeter store resolved = (store, HResult.invalid) := by
  unfold DeleteMeter
  rw [dbRemoveMeter_not_found h]

/-- C7 witness instance: deleting the absent ID "99" from the fixture
store. -/
theorem deleteMeter_missing_id_invalid_witness :
    DeleteMeter meters meter99 = (meters, HResult.invalid) :=
  deleteMeter_missing_id_invalid meters meter99 (by decide)

/-- C8: after any interleaving of creates and deletes, listing renders
exactly the spec-side survivor list — the initial records plus the created
records in insertion order, each deletion removing the first record carrying
the deleted ID — and the final store is a sublist of the initial store
followed by the created records, so the relative order of the remainder is
preserved. -/
theorem listMeters_after_creates_deletes (store : List Meter) (ops : List Op)
    (h : ∀ op ∈ ops, op.isUpdate = false) :
    ListMeters (applyOps store ops) = NewMeterListResponse (specSurvivors store ops) ∧
    (applyOps store ops).Sublist (store ++ createdAll ops) := by
  constructor
  · unfold ListMeters
    rw [applyOps_eq_spec]
  · rw [applyOps_eq_spec]
    exact specSurvivors_sublist ops store h

/-- C8 witness instance: one create, one hitting delete and one missing
delete against the fixture store. -/
theorem listMeters_after_creates_deletes_witness :
    ListMeters (applyOps meters [Op.create bodyA 0, Op.delete "1", Op.delete "99"]) =
      NewMeterListResponse
        (specSurvivors meters [Op.create bodyA 0, Op.delete "1", Op.delete "99"]) ∧
    (applyOps meters [Op.create bodyA 0, Op.delete "1", Op.delete "99"]).Sublist
      (meters ++ createdAll [Op.create bodyA 0, Op.delete "1", Op.delete "99"]) :=
  listMeters_after_creates_deletes meters
    [Op.create bodyA 0, Op.delete "1", Op.delete "99"] (by decide)

/-- C9: the resolver dispatch — with an id segment present the lookup is by
ID alone (the slug segment is never consulted), the slug lookup runs only
when no id segment is present, and when neither segment is present, or the
attempted lookup misses (the none branches), the middleware answers
Not-Found without invoking the downstream handler. -/
theorem meterCtx_dispatch (store : List Meter) (mid mslug : String) :
    (mid ≠ "" →
      MeterCtx store mid mslug =
        match dbGetMeter store mid with
        | some m => CtxResult.next m
        | none => CtxResult.notFound) ∧
    (mid = "" → mslug ≠ "" →
      MeterCtx store mid mslug =
        match dbGetMeterBySlug store mslug with
        | some m => CtxResult.next m
        | none => CtxResult.notFound) ∧
    (mid = "" → mslug = "" → MeterCtx store mid mslug = CtxResult.notFound) := by
  refine ⟨fun h => ?_, fun h1 h2 => ?_, fun h1 h2 => ?_⟩
  · unfold MeterCtx
    rw [if_pos h]
  · unfold MeterCtx
    rw [if_neg (not_not_intro h1), if_pos h2]
  · unfold MeterCtx
    rw [if_neg (not_not_intro h1), if_neg (not_not_intro h2)]

/-- C9 witness instance: an id segment present together with a slug segment —
lookup is by ID. -/
theorem meterCtx_dispatch_witness :
    MeterCtx meters "1" "sup" =
      match dbGetMeter meters "1" with
      | some m => CtxResult.next m
      | none => CtxResult.notFound :=
  (meterCtx_dispatch meters "1" "sup").1 (by decide)

/-- C10: a create body that sets none of the embedded Meter's keys (for
example the empty body, or a body carrying only the id key, which binds to
the outer ProtectedID) leaves the embedded pointer nil, and Bind dereferences
it: CreateMeter panics instead of rendering ErrInvalidRequest. -/
theorem createMeter_nil_meter_panics (store : List Meter) (b : Body) (r : Nat)
    (h : hasMeterField b = false) :
    CreateMeter store b r = (store, HResult.panicked) := by
  unfold CreateMeter decodeCreate
  simp [h]

/-- C10 witness instance: the id-only body. -/
theorem createMeter_nil_meter_panics_witness :
    CreateMeter meters bodyIdOnly 0 = (meters, HResult.panicked) :=
  createMeter_nil_meter_panics meters bodyIdOnly 0 (by decide)

end MetersApp
